import Mathlib

/-!
Shallow embedding of the persistence subsystem of the A2 Discord bot
(`models/managers/storage.py`, `models/managers/conversation.py`,
`models/user_profile.py`), together with theorems settling the frozen
claims about it.

Python dictionaries are modelled as insertion-ordered association lists,
JSON values as the inductive type `J`, and the filesystem as an
association list from paths to contents.  Machine-level aspects
(timestamps, the event loop, printing) are abstracted: every function
that reads the current clock takes the current time as an explicit
`String` argument.
-/

namespace A2

/-- JSON-like values, as produced by `json.loads` and held in the
in-memory containers.  `null` doubles as Python's `None`. -/
inductive J where
  | null
  | bool (b : Bool)
  | int (n : Int)
  | str (s : String)
  | arr (xs : List J)
  | obj (kv : List (String × J))

/-- Association-list lookup (Python `d.get(k)` / `d[k]`). -/
def alookup {α β : Type} [DecidableEq α] : List (α × β) → α → Option β
  | [], _ => none
  | (k, v) :: rest, key => if k = key then some v else alookup rest key

/-- Association-list insert, Python `d[k] = v`: an existing key keeps its
position and gets the new value; a fresh key is appended at the end
(Python dicts preserve insertion order). -/
def ainsert {α β : Type} [DecidableEq α] : List (α × β) → α → β → List (α × β)
  | [], key, val => [(key, val)]
  | (k, v) :: rest, key, val =>
      if k = key then (k, val) :: rest else (k, v) :: ainsert rest key val

/-- Association-list removal, Python `d.pop(k)` (keys are unique in a
Python dict, so removing the first occurrence suffices). -/
def aerase {α β : Type} [DecidableEq α] : List (α × β) → α → List (α × β)
  | [], _ => []
  | (k, v) :: rest, key => if k = key then rest else (k, v) :: aerase rest key

/-- The keys of an association list. -/
def akeys {α β : Type} : List (α × β) → List α := List.map Prod.fst

/-- Python truthiness of a JSON value (`if x:`). -/
def pyTruthy : J → Bool
  | .null => false
  | .bool b => b
  | .int n => n != 0
  | .str s => !s.isEmpty
  | .arr xs => !xs.isEmpty
  | .obj kv => !kv.isEmpty

/-!
## `models/user_profile.py` — the `UserProfile` class

A `UserProfile` instance's `__dict__` holds, in insertion order, the
eleven data attributes set by `__init__`, followed by any attribute
later created by `setattr` under a name that was not one of them
(`update_profile` and `from_dict` guard `setattr` with `hasattr`, which
is also true for the class's method names, so such extra instance
attributes are reachable).  The model splits the instance `__dict__`
into the eleven named fields plus `extraAttrs` for the rest; the
implicit Python invariant that `__dict__` has unique keys corresponds
to `extraAttrs` having keys that are distinct and disjoint from the
data-field names.  All field values are `J` (Python `None` is `J.null`,
timestamps are ISO strings).  Inherited dunder attributes (`__class__`,
`__init__`, ...) are outside the model. -/

structure UserProfile where
  user_id : J
  name : J
  nickname : J
  preferred_name : J
  personality_traits : J
  interests : J
  notable_facts : J
  relationship_context : J
  conversation_topics : J
  created_at : J
  updated_at : J
  extraAttrs : List (String × J)

/-- The eleven data-attribute names set by `UserProfile.__init__`, in
`__dict__` insertion order. -/
def dataFields : List String :=
  ["user_id", "name", "nickname", "preferred_name", "personality_traits",
   "interests", "notable_facts", "relationship_context",
   "conversation_topics", "created_at", "updated_at"]

/-- The method names defined on the `UserProfile` class (`hasattr` is
true for these as well). -/
def methodNames : List String :=
  ["update_profile", "to_dict", "from_dict", "get_summary"]

/-- `UserProfile.__init__(user_id)` at clock time `now`. -/
def UserProfile.init (uid : J) (now : String) : UserProfile :=
  { user_id := uid
    name := .null
    nickname := .null
    preferred_name := .null
    personality_traits := .arr []
    interests := .arr []
    notable_facts := .arr []
    relationship_context := .arr []
    conversation_topics := .arr []
    created_at := .str now
    updated_at := .str now
    extraAttrs := [] }

/-- Python `setattr(self, f, v)`: a data-field name updates that field;
any other name creates or updates an instance attribute. -/
def UserProfile.setattr (p : UserProfile) (f : String) (v : J) : UserProfile :=
  if f = "user_id" then { p with user_id := v }
  else if f = "name" then { p with name := v }
  else if f = "nickname" then { p with nickname := v }
  else if f = "preferred_name" then { p with preferred_name := v }
  else if f = "personality_traits" then { p with personality_traits := v }
  else if f = "interests" then { p with interests := v }
  else if f = "notable_facts" then { p with notable_facts := v }
  else if f = "relationship_context" then { p with relationship_context := v }
  else if f = "conversation_topics" then { p with conversation_topics := v }
  else if f = "created_at" then { p with created_at := v }
  else if f = "updated_at" then { p with updated_at := v }
  else { p with extraAttrs := ainsert p.extraAttrs f v }

/-- Python `hasattr(self, f)` restricted to the modelled attribute
space: data fields, class methods, and already-created extra instance
attributes. -/
def UserProfile.hasattr (p : UserProfile) (f : String) : Bool :=
  f ∈ dataFields || f ∈ methodNames || (alookup p.extraAttrs f).isSome

/-- `UserProfile.update_profile(field, value)` at clock time `now`:
if `hasattr(self, field)` then `setattr` and refresh `updated_at`,
returning `True`; otherwise return `False`. -/
def UserProfile.update_profile (p : UserProfile) (f : String) (v : J)
    (now : String) : UserProfile × Bool :=
  if p.hasattr f then
    ({ p.setattr f v with updated_at := .str now }, true)
  else
    (p, false)

/-- `UserProfile.to_dict()`: the instance `__dict__` as an ordered
association list (the eleven init-order fields, then extras). -/
def UserProfile.to_dict (p : UserProfile) : List (String × J) :=
  [("user_id", p.user_id), ("name", p.name), ("nickname", p.nickname),
   ("preferred_name", p.preferred_name),
   ("personality_traits", p.personality_traits),
   ("interests", p.interests), ("notable_facts", p.notable_facts),
   ("relationship_context", p.relationship_context),
   ("conversation_topics", p.conversation_topics),
   ("created_at", p.created_at), ("updated_at", p.updated_at)]
  ++ p.extraAttrs

/-- `UserProfile.from_dict(data)` at clock time `now`: construct with
`data.get('user_id')` (default `None`), then `setattr` every key of the
document for which `hasattr` holds, in document order. -/
def UserProfile.from_dict (data : List (String × J)) (now : String) :
    UserProfile :=
  data.foldl
    (fun p kv => if p.hasattr kv.1 then p.setattr kv.1 kv.2 else p)
    (UserProfile.init ((alookup data "user_id").getD .null) now)

/-!
## `models/managers/conversation.py` — `ConversationManager`

Only the state and `add_message` are embedded (the regex extraction and
summary heuristics are out of the claims' scope).  A stored message is
the dict `{"content": ..., "timestamp": ..., "from_bot": ...}` built by
`add_message`; conversation lists loaded from disk also live in
`conversations`, so entries are plain `J` values.  `conversations` is a
`defaultdict(list)`: a lookup miss behaves as the empty list. -/

structure ConversationManager where
  conversations : List (Int × List J)
  conversation_summaries : List (Int × J)
  user_profiles : List (Int × UserProfile)

/-- `self.MAX_HISTORY` (set to 10 in `__init__`). -/
def MAX_HISTORY : Nat := 10

/-- `ConversationManager.add_message(user_id, content, is_from_bot)` at
clock time `now`: append the message record, then keep only the last
`MAX_HISTORY` entries (`[-MAX_HISTORY:]` slicing). -/
def ConversationManager.add_message (cm : ConversationManager) (uid : Int)
    (content : J) (is_from_bot : Bool) (now : String) : ConversationManager :=
  let cur := (alookup cm.conversations uid).getD []
  let l := cur ++
    [J.obj [("content", content), ("timestamp", .str now),
            ("from_bot", .bool is_from_bot)]]
  let l' := if l.length > MAX_HISTORY then l.drop (l.length - MAX_HISTORY) else l
  { cm with conversations := ainsert cm.conversations uid l' }

/-!
## `models/managers/storage.py` — `StorageManager`

The in-memory emotional state hydrated and persisted by the storage
manager.  `interaction_stats` values are `Counter` objects, i.e. string
to count mappings; `relationship_progress` and the per-user
memory/event/milestone entries hold whatever JSON the corresponding
file decoded to. -/

structure EmotionManager where
  user_emotions : List (Int × List (String × J))
  user_memories : List (Int × J)
  user_events : List (Int × J)
  user_milestones : List (Int × J)
  interaction_stats : List (Int × List (String × J))
  relationship_progress : List (Int × J)
  dm_enabled_users : List J

/-- What a stored file's text decodes to: empty/whitespace-only text,
text that `json.loads` rejects, or a decoded JSON document. -/
inductive PContent where
  | blank
  | malformed
  | doc (j : J)

/-- `Counter(m)` for a JSON mapping: the mapping of counts itself
(`dict(Counter(m))` gives the same mapping back).  `Counter` applied to
a non-mapping (which would count iterable elements or raise) is outside
the model; no code path of the claims produces one. -/
def pyCounter : J → List (String × J)
  | .obj kv => kv
  | _ => []

/-- Digit-string parser used by `parseInt?`. -/
def decDigits? (cs : List Char) : Option Nat :=
  if cs.isEmpty then none
  else cs.foldl
    (fun acc c =>
      acc.bind fun n => if c.isDigit then some (n * 10 + (c.toNat - 48)) else none)
    (some 0)

/-- Python `int(s)` on a file-name stem: an optional sign followed by
decimal digits; anything else raises `ValueError` (`none`).  (Python
also strips surrounding whitespace and allows digit-group underscores;
neither occurs in the stems the storage manager parses, since
underscored stems are filtered out before the call.) -/
def parseInt? (s : String) : Option Int :=
  match s.data with
  | [] => none
  | '-' :: rest => (decDigits? rest).map fun n => -(n : Int)
  | '+' :: rest => (decDigits? rest).map fun n => (n : Int)
  | cs => (decDigits? cs).map fun n => (n : Int)

/-- `file.stem.split("_")[0]`: the stem's characters before the first
underscore. -/
def stemUid (s : String) : String := s.takeWhile (fun c => c ≠ '_')

/-- Python `c in s` for a single character: membership in the string's
characters. -/
def strContains (s : String) (c : Char) : Bool := decide (c ∈ s.data)

/-- `glob("*" + suffix + ".json")` viewed on stems: the stem ends with
`suffix` (the `*` may match the empty string). -/
def strEndsWith (s t : String) : Bool := decide (t.data <:+ s.data)

/-!
### `StorageManager.load_data`

A directory is an ordered list of `(stem, content)` pairs, one per
`*.json` file (all files the globs can see carry the `.json` extension;
the stem is the name without it).  The ambient filesystem check
`verify_data_directories` is modelled by the boolean `dirOk`, and every
clock read by the `now` string.

`load_data` itself never reaches its scans: its second statement
initializes the memory, event, milestone, stats and relationship
containers with `defaultdict(...)` calls, but the module imports only
`Counter` from `collections`, so the name `defaultdict` is unbound and
every call raises `NameError` before the directory check and before any
file is read.  `load_data` below is that faithful semantics; the
remainder of the function body — dead code in every execution — is kept
as the separate `load_data_scan`, which records what the lines after
the raising statements say, since it is the evident intent of the
function and of the spec.

A fidelity note on `load_data_scan`: a composite profile document that
decodes to a JSON non-object would make that code raise an uncaught
`TypeError` at the `first_interaction` backfill; the scan model
restricts composite documents to objects and maps the non-object case
into the per-file error count. -/

/-- A Python exception, as a value; only the one exception the storage
module raises before any I/O is modelled. -/
inductive PyError where
  | nameError (name : String)
deriving DecidableEq

structure LoadOutcome where
  em : EmotionManager
  cm : ConversationManager
  profileCount : Nat
  errorCount : Nat
  memoryCount : Nat
  eventsCount : Nat
  milestonesCount : Nat
  userProfileCount : Nat
  conversationCount : Nat
  summaryCount : Nat
  ok : Bool

/-- One iteration of the composite-profile scan
(`for file in self.profiles_dir.glob("*.json"): if "_" not in file.stem: ...`).
The accumulator is (emotions, relationship, stats, profile count,
error count).  Note the scan reads the two sub-documents with
`data.get(...)`, leaving them inside the stored emotion mapping. -/
def loadProfileStep
    (acc : List (Int × List (String × J)) × List (Int × J) ×
           List (Int × List (String × J)) × Nat × Nat)
    (e : String × PContent) :
    List (Int × List (String × J)) × List (Int × J) ×
    List (Int × List (String × J)) × Nat × Nat :=
  let (emo, rel, stats, pc, ec) := acc
  if strContains e.1 '_' then acc
  else
    match parseInt? e.1 with
    | none => (emo, rel, stats, pc, ec + 1)
    | some uid =>
      match e.2 with
      | .blank => acc
      | .malformed => (emo, rel, stats, pc, ec + 1)
      | .doc (.obj kv) =>
        (ainsert emo uid kv,
         (match alookup kv "relationship" with
          | some r => ainsert rel uid r
          | none => rel),
         (match alookup kv "interaction_stats" with
          | some s => ainsert stats uid (pyCounter s)
          | none => stats),
         pc + 1, ec)
      | .doc _ => (emo, rel, stats, pc, ec + 1)

/-- One family scan (`glob("*_memories.json")` and friends): derive the
user id from the stem before the first underscore; blank files and
per-file failures (unparsable id, undecodable content) are skipped
without touching the error counter. -/
def loadFamily (dir : List (String × PContent)) (suffix : String) :
    List (Int × J) × Nat :=
  dir.foldl
    (fun acc e =>
      if strEndsWith e.1 suffix then
        match parseInt? (stemUid e.1) with
        | none => acc
        | some uid =>
          match e.2 with
          | .doc j => (ainsert acc.1 uid j, acc.2 + 1)
          | _ => acc
      else acc)
    ([], 0)

/-- The `*_profile.json` scan: a document loads only when it is a
non-blank object, the id parses, and — because the source reaches the
class through `conversation_manager.user_profiles[uid].__class__` — the
user id is already present in the in-memory profile map (a miss raises
`KeyError`, caught and skipped without counting). -/
def loadUserProfilesScan (dir : List (String × PContent))
    (init : List (Int × UserProfile)) (now : String) :
    List (Int × UserProfile) × Nat :=
  dir.foldl
    (fun acc e =>
      if strEndsWith e.1 "_profile" then
        match parseInt? (stemUid e.1) with
        | none => acc
        | some uid =>
          match e.2 with
          | .doc (.obj kv) =>
            match alookup acc.1 uid with
            | some _ => (ainsert acc.1 uid (UserProfile.from_dict kv now), acc.2 + 1)
            | none => acc
          | _ => acc
      else acc)
    (init, 0)

/-- The `*_summary.json` scan: stores `data.get("summary", "")` for
non-blank object documents. -/
def loadSummariesScan (dir : List (String × PContent))
    (init : List (Int × J)) : List (Int × J) × Nat :=
  dir.foldl
    (fun acc e =>
      if strEndsWith e.1 "_summary" then
        match parseInt? (stemUid e.1) with
        | none => acc
        | some uid =>
          match e.2 with
          | .doc (.obj kv) =>
            (ainsert acc.1 uid ((alookup kv "summary").getD (.str "")), acc.2 + 1)
          | _ => acc
      else acc)
    (init, 0)

/-- The `*_conversations.json` scan: stores decoded message arrays into
the (pre-existing) conversation map.  Non-array documents are skipped
in the model (the source stores them, which breaks later appends). -/
def loadConversationsScan (dir : List (String × PContent))
    (init : List (Int × List J)) : List (Int × List J) × Nat :=
  dir.foldl
    (fun acc e =>
      if strEndsWith e.1 "_conversations" then
        match parseInt? (stemUid e.1) with
        | none => acc
        | some uid =>
          match e.2 with
          | .doc (.arr xs) => (ainsert acc.1 uid xs, acc.2 + 1)
          | _ => acc
      else acc)
    (init, 0)

/-- The `first_interaction` backfill run over every loaded emotional
record: a record lacking the key gains it, valued at the record's
`last_interaction` or else the current time. -/
def backfillFirstInteraction (now : String) (kv : List (String × J)) :
    List (String × J) :=
  if (alookup kv "first_interaction").isSome then kv
  else ainsert kv "first_interaction" ((alookup kv "last_interaction").getD (.str now))

/-- `StorageManager.load_dm_settings`: absent, blank or undecodable
settings give the empty set; otherwise `set(data.get('enabled_users', []))`.
(Python builds a set; the model keeps the document's list, which no
claim inspects further.) -/
def load_dm_settings (dmFile : Option PContent) : List J :=
  match dmFile with
  | some (.doc (.obj kv)) =>
    match alookup kv "enabled_users" with
    | some (.arr xs) => xs
    | _ => []
  | _ => []

/-- `StorageManager.load_data(emotion_manager, conversation_manager)`.
Its first statement resets `user_emotions` to `{}`; its second,
`emotion_manager.user_memories = defaultdict(list)`, references
`defaultdict`, a name the module never binds (the import is
`from collections import Counter`), so every call raises
`NameError: name 'defaultdict' is not defined` — before the
`verify_data_directories` check, before any file is read, and
regardless of every argument. -/
def load_data (_dirOk : Bool)
    (_profilesDir _userProfilesDir _conversationsDir :
    List (String × PContent)) (_dmFile : Option PContent)
    (_cm : ConversationManager) (_now : String) :
    Except PyError LoadOutcome :=
  Except.error (PyError.nameError "defaultdict")

/-- What the body of `load_data` after its raising container
initializations says — dead code in every execution, recorded because
it is the evident intent.  The emotional containers are reset (the
`defaultdict(...)` initializations are taken as fresh empty
containers); the conversation manager's containers are not reset (the
scans merge into them).  The success indicator returned at the end is
`profile_count > 0` — but `profile_count` has been reassigned by the
`*_profile.json` scan, so it is the count of structured user-profile
documents, not of composite emotional profiles. -/
def load_data_scan (dirOk : Bool)
    (profilesDir userProfilesDir conversationsDir :
    List (String × PContent)) (dmFile : Option PContent)
    (cm : ConversationManager) (now : String) : LoadOutcome :=
  if !dirOk then
    { em := ⟨[], [], [], [], [], [], []⟩, cm := cm,
      profileCount := 0, errorCount := 0, memoryCount := 0,
      eventsCount := 0, milestonesCount := 0, userProfileCount := 0,
      conversationCount := 0, summaryCount := 0, ok := false }
  else
    let (emo, rel, stats, pc, ec) := profilesDir.foldl loadProfileStep ([], [], [], 0, 0)
    let (mems, memc) := loadFamily profilesDir "_memories"
    let (evts, evtc) := loadFamily profilesDir "_events"
    let (miles, milec) := loadFamily profilesDir "_milestones"
    let (ups, upc) := loadUserProfilesScan userProfilesDir cm.user_profiles now
    let (convs, convc) := loadConversationsScan conversationsDir cm.conversations
    let (sums, sumc) := loadSummariesScan conversationsDir cm.conversation_summaries
    let emo' := emo.map fun p => (p.1, backfillFirstInteraction now p.2)
    { em := { user_emotions := emo'
              user_memories := mems
              user_events := evts
              user_milestones := miles
              interaction_stats := stats
              relationship_progress := rel
              dm_enabled_users := load_dm_settings dmFile }
      cm := { conversations := convs
              conversation_summaries := sums
              user_profiles := ups }
      profileCount := pc
      errorCount := ec
      memoryCount := memc
      eventsCount := evtc
      milestonesCount := milec
      userProfileCount := upc
      conversationCount := convc
      summaryCount := sumc
      ok := decide (upc > 0) }

/-!
### `StorageManager.save_file` — the atomic-write primitive

Modelled at filesystem level: the filesystem is an association list
from path strings to file text.  `json.dumps(data, indent=2)` is
abstracted by its outcome `enc : Option String` (`none` = serialization
raised), the two I/O steps by the booleans `writeOk` (the temp-file
`write_text`) and `replaceOk` (the `os.replace`-backed `Path.replace`);
`junk` is whatever partial text a failed `write_text` leaves at the
temporary path.  `trace` lists the filesystem states the function
passes through, in order, so that intermediate visibility can be
stated.  (The source's fall-through `return False` when the freshly
written temp file does not exist is unreachable and not modelled.) -/

/-- `Path.with_suffix(suf)` for a bare file name: replace everything
from the last dot, or append if there is no dot. -/
def withSuffix (p suf : String) : String :=
  let cs := p.data
  if cs.contains '.' then
    String.mk (((cs.reverse.dropWhile (fun c => c ≠ '.')).drop 1).reverse) ++ suf
  else
    String.mk cs ++ suf

structure SaveFileOut where
  result : Bool
  fs : List (String × String)
  trace : List (List (String × String))

def save_file (fs : List (String × String)) (path : String)
    (enc : Option String) (writeOk replaceOk : Bool) (junk : String) :
    SaveFileOut :=
  let temp := withSuffix path ".tmp"
  match enc with
  | none => ⟨false, fs, [fs]⟩
  | some s =>
    if writeOk then
      let fs1 := ainsert fs temp s
      if replaceOk then
        let fs2 := ainsert (aerase fs1 temp) path s
        ⟨true, fs2, [fs, fs1, fs2]⟩
      else ⟨false, fs1, [fs, fs1]⟩
    else ⟨false, ainsert fs temp junk, [fs, ainsert fs temp junk]⟩

/-!
### `StorageManager.save_data` — the save orchestration

Modelled at the level the claims speak about: which files each call
attempts to write (as structured `SavePath` values — the source's
distinct name patterns under distinct directories) and the booleans the
functions return.  Per-write success is the oracle
`fileOk : SavePath → Bool` (what the corresponding `save_file` call
would return).  `save_user_profile`, `save_conversation` and
`save_user_profile_data` consult their `save_file` results only for
log lines and return `True`; their `try`-blocks guard directory
creation and formatting, which the model takes as non-raising. -/

inductive SavePath where
  | composite (uid : Int)
  | memories (uid : Int)
  | events (uid : Int)
  | milestones (uid : Int)
  | conversations (uid : Int)
  | summary (uid : Int)
  | profileDoc (uid : Int)
  | dmSettings
deriving DecidableEq

/-- `StorageManager.save_user_profile(user_id, emotion_manager)`.
`data = emotion_manager.user_emotions.get(user_id, {})` aliases the
stored dict when the user is present, so the two `data[...] = ...`
insertions mutate the shared in-memory emotion mapping; the returned
manager reflects that.  Memories/events/milestones files are written
only when the user's entry exists and is truthy.  Returns `True`. -/
def save_user_profile (em : EmotionManager) (uid : Int) :
    EmotionManager × List SavePath × Bool :=
  let data0 := (alookup em.user_emotions uid).getD []
  let data1 := ainsert data0 "relationship"
    ((alookup em.relationship_progress uid).getD (.obj []))
  let data2 := ainsert data1 "interaction_stats"
    (.obj ((alookup em.interaction_stats uid).getD []))
  let em' := if (alookup em.user_emotions uid).isSome then
      { em with user_emotions := ainsert em.user_emotions uid data2 }
    else em
  let memPaths := match alookup em.user_memories uid with
    | some v => if pyTruthy v then [SavePath.memories uid] else []
    | none => []
  let evtPaths := match alookup em.user_events uid with
    | some v => if pyTruthy v then [SavePath.events uid] else []
    | none => []
  let milePaths := match alookup em.user_milestones uid with
    | some v => if pyTruthy v then [SavePath.milestones uid] else []
    | none => []
  (em', SavePath.composite uid :: (memPaths ++ evtPaths ++ milePaths), true)

/-- `StorageManager.save_conversation(user_id, conversation_manager)`:
writes the history file when the user has a conversations entry and the
summary file when they have a summary entry; returns `True`. -/
def save_conversation (cm : ConversationManager) (uid : Int) :
    List SavePath × Bool :=
  ((if (alookup cm.conversations uid).isSome then [SavePath.conversations uid] else [])
    ++ (if (alookup cm.conversation_summaries uid).isSome then [SavePath.summary uid] else []),
   true)

/-- `StorageManager.save_user_profile_data(user_id, profile)`: writes
the profile document and returns `True`. -/
def save_user_profile_data (uid : Int) : List SavePath × Bool :=
  ([SavePath.profileDoc uid], true)

/-- `StorageManager.save_dm_settings`: one `save_file` call whose result
is returned. -/
def save_dm_settings (fileOk : SavePath → Bool) : List SavePath × Bool :=
  ([SavePath.dmSettings], fileOk SavePath.dmSettings)

/-- One user's slice of `save_data`'s loop body. -/
def saveDataStep (cmOpt : Option ConversationManager)
    (st : EmotionManager × List SavePath × Bool) (uid : Int) :
    EmotionManager × List SavePath × Bool :=
  let (em1, ps1, ok1) := save_user_profile st.1 uid
  let ok := st.2.2 && ok1
  match cmOpt with
  | some cm =>
    if (alookup cm.conversations uid).isSome then
      let (ps2, ok2) := save_conversation cm uid
      if (alookup cm.user_profiles uid).isSome then
        let (ps3, ok3) := save_user_profile_data uid
        (em1, st.2.1 ++ ps1 ++ ps2 ++ ps3, ok && ok2 && ok3)
      else (em1, st.2.1 ++ ps1 ++ ps2, ok && ok2)
    else (em1, st.2.1 ++ ps1, ok)
  | none => (em1, st.2.1 ++ ps1, ok)

/-- `StorageManager.save_data(emotion_manager, conversation_manager)`:
iterate the users of the emotion-state container, then write the DM
settings; the aggregate boolean is the conjunction of the helpers'
return values and the DM-settings write result. -/
def save_data (em : EmotionManager) (cmOpt : Option ConversationManager)
    (fileOk : SavePath → Bool) : EmotionManager × List SavePath × Bool :=
  let (em', ps, ok) :=
    (akeys em.user_emotions).foldl (saveDataStep cmOpt) (em, [], true)
  let (psDm, okDm) := save_dm_settings fileOk
  (em', ps ++ psDm, ok && okDm)

/-!
### Analysis-layer definitions for `save_data`
-/

/-- The conversation-side writes `save_data`'s loop issues for one
user. -/
def cmPaths (cmOpt : Option ConversationManager) (uid : Int) :
    List SavePath :=
  match cmOpt with
  | some cm =>
    if (alookup cm.conversations uid).isSome then
      (save_conversation cm uid).1 ++
        (if (alookup cm.user_profiles uid).isSome then
          (save_user_profile_data uid).1 else [])
    else []
  | none => []

/-- All writes `save_data`'s loop issues for one user. -/
def perUserPaths (em : EmotionManager) (cmOpt : Option ConversationManager)
    (uid : Int) : List SavePath :=
  (save_user_profile em uid).2.1 ++ cmPaths cmOpt uid

/-- The truthiness test `uid in d and d[uid]` used by
`save_user_profile` for the memories/events/milestones families. -/
def truthyEntry (l : List (Int × J)) (uid : Int) : Bool :=
  match alookup l uid with
  | some v => pyTruthy v
  | none => false

/-! ## Association-list lemmas -/

theorem alookup_ainsert {α β : Type} [DecidableEq α]
    (l : List (α × β)) (k : α) (v : β) : alookup (ainsert l k v) k = some v := by
  induction l with
  | nil => simp [ainsert, alookup]
  | cons hd tl ih =>
    obtain ⟨k', v'⟩ := hd
    by_cases h : k' = k <;> simp [ainsert, alookup, h, ih]

theorem alookup_ainsert_ne {α β : Type} [DecidableEq α]
    (l : List (α × β)) {k' k : α} (v : β) (h : k' ≠ k) :
    alookup (ainsert l k' v) k = alookup l k := by
  induction l with
  | nil => simp [ainsert, alookup, h]
  | cons hd tl ih =>
    obtain ⟨a, b⟩ := hd
    by_cases ha : a = k' <;> simp [ainsert, alookup, ha, ih]
    · subst ha; simp [alookup, h]

theorem alookup_aerase_ne {α β : Type} [DecidableEq α]
    (l : List (α × β)) {k' k : α} (h : k' ≠ k) :
    alookup (aerase l k') k = alookup l k := by
  induction l with
  | nil => simp [aerase]
  | cons hd tl ih =>
    obtain ⟨a, b⟩ := hd
    by_cases ha : a = k' <;> simp [aerase, alookup, ha, ih]
    · subst ha; simp [alookup, h]

theorem ainsert_of_alookup_none {α β : Type} [DecidableEq α]
    (l : List (α × β)) (k : α) (v : β) (h : alookup l k = none) :
    ainsert l k v = l ++ [(k, v)] := by
  induction l with
  | nil => simp [ainsert]
  | cons hd tl ih =>
    obtain ⟨a, b⟩ := hd
    by_cases ha : a = k
    · subst ha; simp [alookup] at h
    · simp [alookup, ha] at h
      simp [ainsert, ha, ih h]

theorem alookup_append {α β : Type} [DecidableEq α]
    (l₁ l₂ : List (α × β)) (k : α) :
    alookup (l₁ ++ l₂) k = (alookup l₁ k).or (alookup l₂ k) := by
  induction l₁ with
  | nil => simp [alookup]
  | cons hd tl ih =>
    obtain ⟨a, b⟩ := hd
    by_cases ha : a = k <;> simp [alookup, ha, ih]

theorem mem_akeys_of_alookup_isSome {α β : Type} [DecidableEq α]
    {l : List (α × β)} {k : α} (h : (alookup l k).isSome) : k ∈ akeys l := by
  induction l with
  | nil => simp [alookup] at h
  | cons hd tl ih =>
    obtain ⟨a, b⟩ := hd
    by_cases ha : a = k
    · subst ha; simp [akeys]
    · simp [alookup, ha] at h
      simpa [akeys] using Or.inr (by simpa [akeys] using ih h)

theorem mem_akeys_ainsert {α β : Type} [DecidableEq α]
    {l : List (α × β)} {k' k : α} {v : β} :
    k' ∈ akeys (ainsert l k v) → k' ∈ akeys l ∨ k' = k := by
  induction l with
  | nil =>
    intro h
    exact Or.inr (by simpa [ainsert, akeys] using h)
  | cons hd tl ih =>
    obtain ⟨a, b⟩ := hd
    by_cases ha : a = k
    · subst ha
      intro h
      simp [ainsert, akeys] at h
      rcases h with h | h
      · exact Or.inr h
      · exact Or.inl (by simp [akeys]; exact Or.inr h)
    · intro h
      simp [ainsert, ha, akeys] at h
      rcases h with h | h
      · exact Or.inl (by simp [akeys, h])
      · rcases ih (by simpa [akeys] using h) with h' | h'
        · exact Or.inl (by simp [akeys] at h' ⊢; exact Or.inr h')
        · exact Or.inr h'

/-- A stem with no occurrence of a character cannot end in a suffix
containing it (used to keep composite stems out of the family globs). -/
theorem strEndsWith_eq_false (s t : String) (c : Char)
    (hc : c ∈ t.data) (h : strContains s c = false) :
    strEndsWith s t = false := by
  unfold strContains at h
  unfold strEndsWith
  rw [decide_eq_false_iff_not] at h
  rw [decide_eq_false_iff_not]
  exact fun hsuf => h (hsuf.subset hc)

/-! ## The claims -/

/-- C7: `save_file` either succeeds and leaves the final path holding
exactly the full serialization of the record, or fails (serialization
error, write error, or replace error) and leaves the final path's
content identical to its prior state; moreover every intermediate
filesystem state shows the final path holding either the old content or
the complete new content — never a partial write — because the new text
goes to a temporary sibling installed by an atomic replace. -/
theorem c7_save_file_atomic (fs : List (String × String)) (path : String)
    (enc : Option String) (writeOk replaceOk : Bool) (junk : String)
    (h : withSuffix path ".tmp" ≠ path) :
    (alookup (save_file fs path enc writeOk replaceOk junk).fs path
      = if (save_file fs path enc writeOk replaceOk junk).result then enc
        else alookup fs path)
    ∧ ∀ g ∈ (save_file fs path enc writeOk replaceOk junk).trace,
        alookup g path = alookup fs path ∨ alookup g path = enc := by
  cases enc with
  | none => simp [save_file]
  | some s =>
    cases writeOk with
    | false =>
      refine ⟨alookup_ainsert_ne fs junk h, ?_⟩
      intro g hg
      have hg' : g ∈ [fs, ainsert fs (withSuffix path ".tmp") junk] := hg
      simp only [List.mem_cons, List.not_mem_nil, or_false] at hg'
      rcases hg' with rfl | rfl
      · exact Or.inl rfl
      · exact Or.inl (alookup_ainsert_ne fs junk h)
    | true =>
      cases replaceOk with
      | false =>
        refine ⟨alookup_ainsert_ne fs s h, ?_⟩
        intro g hg
        have hg' : g ∈ [fs, ainsert fs (withSuffix path ".tmp") s] := hg
        simp only [List.mem_cons, List.not_mem_nil, or_false] at hg'
        rcases hg' with rfl | rfl
        · exact Or.inl rfl
        · exact Or.inl (alookup_ainsert_ne fs s h)
      | true =>
        refine ⟨alookup_ainsert _ path s, ?_⟩
        intro g hg
        have hg' : g ∈ [fs, ainsert fs (withSuffix path ".tmp") s,
            ainsert (aerase (ainsert fs (withSuffix path ".tmp") s)
              (withSuffix path ".tmp")) path s] := hg
        simp only [List.mem_cons, List.not_mem_nil, or_false] at hg'
        rcases hg' with rfl | rfl | rfl
        · exact Or.inl rfl
        · exact Or.inl (alookup_ainsert_ne fs s h)
        · exact Or.inr (alookup_ainsert _ path s)

/-- Witness for C7 at a concrete input. -/
theorem c7_save_file_atomic_witness :
    withSuffix "42.json" ".tmp" ≠ "42.json" ∧
    ((alookup (save_file [("42.json", "old")] "42.json" (some "new") true true "j").fs "42.json"
      = if (save_file [("42.json", "old")] "42.json" (some "new") true true "j").result
        then some "new" else alookup [("42.json", "old")] "42.json")
     ∧ ∀ g ∈ (save_file [("42.json", "old")] "42.json" (some "new") true true "j").trace,
        alookup g "42.json" = alookup [("42.json", "old")] "42.json"
          ∨ alookup g "42.json" = some "new") :=
  ⟨by decide,
   c7_save_file_atomic [("42.json", "old")] "42.json" (some "new") true true "j"
     (by decide)⟩

/-- Running `add_message` repeatedly for one user computes, on that
user's entry, the corresponding pure fold of append-then-truncate. -/
theorem addMessageRun (uid : Int) (c : Nat → J) (b : Nat → Bool)
    (t : Nat → String) :
    ∀ (is : List Nat) (cm : ConversationManager) (cur : List J),
    alookup cm.conversations uid = some cur →
    alookup ((is.foldl (fun m i => m.add_message uid (c i) (b i) (t i))
        cm).conversations) uid
      = some (is.foldl (fun l i =>
          let l2 := l ++ [J.obj [("content", c i), ("timestamp", J.str (t i)),
                                 ("from_bot", J.bool (b i))]]
          if l2.length > MAX_HISTORY then l2.drop (l2.length - MAX_HISTORY)
          else l2) cur)
  | [], cm, cur, h => by simpa using h
  | i :: is, cm, cur, h => by
    simp only [List.foldl_cons]
    apply addMessageRun uid c b t is
    unfold ConversationManager.add_message
    rw [alookup_ainsert, h]
    rfl

/-- C8: after any `add_message` call the touched user's conversation
history holds at most 10 messages (eviction happens at append time),
and appending 15 messages starting from an empty history leaves exactly
the 10 most recently appended messages in chronological order. -/
theorem c8_bounded_history :
    (∀ (cm : ConversationManager) (uid : Int) (content : J) (b : Bool)
        (now : String),
      ((alookup (cm.add_message uid content b now).conversations uid).getD
        []).length ≤ 10)
    ∧ ∀ (c : Nat → J) (b : Nat → Bool) (t : Nat → String),
        alookup (((List.range 15).foldl
            (fun (cm : ConversationManager) i =>
              cm.add_message 7 (c i) (b i) (t i))
            ⟨[], [], []⟩).conversations) 7
          = some (((List.range 15).drop 5).map fun i =>
              J.obj [("content", c i), ("timestamp", .str (t i)),
                     ("from_bot", .bool (b i))]) := by
  constructor
  · intro cm uid content b now
    show ((alookup (ainsert cm.conversations uid _) uid).getD []).length ≤ 10
    rw [alookup_ainsert]
    simp only [Option.getD_some]
    split
    · rw [List.length_drop]
      simp only [MAX_HISTORY]
      omega
    · rename_i hlen
      simp only [MAX_HISTORY] at hlen
      omega
  · intro c b t
    have h0 : alookup (((⟨[], [], []⟩ : ConversationManager).add_message 7
        (c 0) (b 0) (t 0)).conversations) 7
        = some [J.obj [("content", c 0), ("timestamp", J.str (t 0)),
                       ("from_bot", J.bool (b 0))]] := rfl
    have hrange : List.range 15
        = 0 :: [1, 2, 3, 4, 5, 6, 7, 8, 9, 10, 11, 12, 13, 14] := rfl
    rw [hrange, List.foldl_cons,
      addMessageRun 7 c b t [1, 2, 3, 4, 5, 6, 7, 8, 9, 10, 11, 12, 13, 14]
        _ _ h0]
    simp [List.foldl_cons, List.foldl_nil, MAX_HISTORY, List.length_append,
      List.drop_succ_cons]

/-- C5 as stated fails on the code: `"to_dict"` does not name a
recognized profile field, yet `update_profile` applies it (Python
`hasattr` is also true for the class's method names), returns success
and creates a shadowing instance attribute. -/
theorem c5_counterexample :
    "to_dict" ∉ dataFields
    ∧ ((UserProfile.init (J.int 1) "t0").update_profile "to_dict" (J.int 5)
        "t1").2 = true
    ∧ ((UserProfile.init (J.int 1) "t0").update_profile "to_dict" (J.int 5)
        "t1").1.extraAttrs = [("to_dict", J.int 5)] :=
  ⟨by decide, rfl, rfl⟩

/-- C5 amended: `update_profile` rejects (failure indicator, profile
unchanged) exactly the names that resolve to no attribute at all —
neither a data field, nor a class method name, nor an existing extra
instance attribute; for every one of the eleven recognized data fields
it reports success, sets `updated_at` to the call time, and stores the
value in that field (except that `updated_at` itself is immediately
overwritten by the call time). -/
theorem c5_amended (p : UserProfile) (f : String) (v : J) (now : String) :
    (p.hasattr f = false → p.update_profile f v now = (p, false))
    ∧ (f ∈ dataFields →
        (p.update_profile f v now).2 = true
        ∧ (p.update_profile f v now).1.updated_at = J.str now
        ∧ (f ≠ "updated_at" →
            alookup (p.update_profile f v now).1.to_dict f = some v)) := by
  constructor
  · intro h
    unfold UserProfile.update_profile
    rw [h]
    rfl
  · intro hf
    have hh : p.hasattr f = true := by
      unfold UserProfile.hasattr
      simp [hf]
    unfold UserProfile.update_profile
    rw [hh]
    refine ⟨rfl, rfl, ?_⟩
    intro hne
    fin_cases hf <;>
      simp_all [UserProfile.setattr, UserProfile.to_dict, alookup]

/-- Witness for C5's amended theorem at concrete inputs. -/
theorem c5_amended_witness :
    ((UserProfile.init (J.int 1) "t0").update_profile "age" (J.int 5) "t1"
      = (UserProfile.init (J.int 1) "t0", false))
    ∧ ((UserProfile.init (J.int 1) "t0").update_profile "name" (J.str "Bob")
        "t1").2 = true
    ∧ alookup ((UserProfile.init (J.int 1) "t0").update_profile "name"
        (J.str "Bob") "t1").1.to_dict "name" = some (J.str "Bob") :=
  ⟨(c5_amended (UserProfile.init (J.int 1) "t0") "age" (J.int 5) "t1").1
     (by decide),
   ((c5_amended (UserProfile.init (J.int 1) "t0") "name" (J.str "Bob")
       "t1").2 (by decide)).1,
   (((c5_amended (UserProfile.init (J.int 1) "t0") "name" (J.str "Bob")
       "t1").2 (by decide)).2.2 (by decide))⟩

/-- `setattr` under a key other than a given data field's name leaves
that field's value unchanged. -/
theorem setattr_fields (p : UserProfile) (k : String) (v : J) :
    (k ≠ "user_id" → (p.setattr k v).user_id = p.user_id)
    ∧ (k ≠ "name" → (p.setattr k v).name = p.name)
    ∧ (k ≠ "nickname" → (p.setattr k v).nickname = p.nickname)
    ∧ (k ≠ "preferred_name" → (p.setattr k v).preferred_name = p.preferred_name)
    ∧ (k ≠ "personality_traits" →
        (p.setattr k v).personality_traits = p.personality_traits)
    ∧ (k ≠ "interests" → (p.setattr k v).interests = p.interests)
    ∧ (k ≠ "notable_facts" → (p.setattr k v).notable_facts = p.notable_facts)
    ∧ (k ≠ "relationship_context" →
        (p.setattr k v).relationship_context = p.relationship_context)
    ∧ (k ≠ "conversation_topics" →
        (p.setattr k v).conversation_topics = p.conversation_topics)
    ∧ (k ≠ "created_at" → (p.setattr k v).created_at = p.created_at)
    ∧ (k ≠ "updated_at" → (p.setattr k v).updated_at = p.updated_at) := by
  refine ⟨?_, ?_, ?_, ?_, ?_, ?_, ?_, ?_, ?_, ?_, ?_⟩
  · intro h
    simp only [UserProfile.setattr]
    simp [apply_ite UserProfile.user_id, h]
  · intro h
    simp only [UserProfile.setattr]
    simp [apply_ite UserProfile.name, h]
  · intro h
    simp only [UserProfile.setattr]
    simp [apply_ite UserProfile.nickname, h]
  · intro h
    simp only [UserProfile.setattr]
    simp [apply_ite UserProfile.preferred_name, h]
  · intro h
    simp only [UserProfile.setattr]
    simp [apply_ite UserProfile.personality_traits, h]
  · intro h
    simp only [UserProfile.setattr]
    simp [apply_ite UserProfile.interests, h]
  · intro h
    simp only [UserProfile.setattr]
    simp [apply_ite UserProfile.notable_facts, h]
  · intro h
    simp only [UserProfile.setattr]
    simp [apply_ite UserProfile.relationship_context, h]
  · intro h
    simp only [UserProfile.setattr]
    simp [apply_ite UserProfile.conversation_topics, h]
  · intro h
    simp only [UserProfile.setattr]
    simp [apply_ite UserProfile.created_at, h]
  · intro h
    simp only [UserProfile.setattr]
    simp [apply_ite UserProfile.updated_at, h]

/-- `setattr` under a key other than `f` does not change the `__dict__`
entry of a data field `f`. -/
theorem to_dict_lookup_setattr_ne (p : UserProfile) (k f : String) (v : J)
    (hf : f ∈ dataFields) (hk : k ≠ f) :
    alookup ((p.setattr k v).to_dict) f = alookup p.to_dict f := by
  fin_cases hf
  · exact congrArg some ((setattr_fields p k v).1 hk)
  · exact congrArg some ((setattr_fields p k v).2.1 hk)
  · exact congrArg some ((setattr_fields p k v).2.2.1 hk)
  · exact congrArg some ((setattr_fields p k v).2.2.2.1 hk)
  · exact congrArg some ((setattr_fields p k v).2.2.2.2.1 hk)
  · exact congrArg some ((setattr_fields p k v).2.2.2.2.2.1 hk)
  · exact congrArg some ((setattr_fields p k v).2.2.2.2.2.2.1 hk)
  · exact congrArg some ((setattr_fields p k v).2.2.2.2.2.2.2.1 hk)
  · exact congrArg some ((setattr_fields p k v).2.2.2.2.2.2.2.2.1 hk)
  · exact congrArg some ((setattr_fields p k v).2.2.2.2.2.2.2.2.2.1 hk)
  · exact congrArg some ((setattr_fields p k v).2.2.2.2.2.2.2.2.2.2 hk)

/-- `setattr` either touches a data field, leaving the extra attributes
alone, or inserts an extra attribute under the (non-data-field) name. -/
theorem setattr_extras (q : UserProfile) (a : String) (v : J) :
    (q.setattr a v).extraAttrs
      = if a ∈ dataFields then q.extraAttrs else ainsert q.extraAttrs a v := by
  by_cases hdf : a ∈ dataFields
  · fin_cases hdf <;> rfl
  · have h' : ¬ (a = "user_id" ∨ a = "name" ∨ a = "nickname"
        ∨ a = "preferred_name" ∨ a = "personality_traits" ∨ a = "interests"
        ∨ a = "notable_facts" ∨ a = "relationship_context"
        ∨ a = "conversation_topics" ∨ a = "created_at"
        ∨ a = "updated_at") := by simpa [dataFields] using hdf
    push_neg at h'
    obtain ⟨h1, h2, h3, h4, h5, h6, h7, h8, h9, h10, h11⟩ := h'
    simp only [UserProfile.setattr]
    simp [apply_ite UserProfile.extraAttrs, hdf, h1, h2, h3, h4, h5, h6, h7,
      h8, h9, h10, h11]

/-- `setattr` under a name that is not a data field only extends the
extra attributes. -/
theorem setattr_not_dataField (q : UserProfile) (a : String) (v : J)
    (ha : a ∉ dataFields) :
    q.setattr a v = { q with extraAttrs := ainsert q.extraAttrs a v } := by
  have h' : ¬ (a = "user_id" ∨ a = "name" ∨ a = "nickname"
      ∨ a = "preferred_name" ∨ a = "personality_traits" ∨ a = "interests"
      ∨ a = "notable_facts" ∨ a = "relationship_context"
      ∨ a = "conversation_topics" ∨ a = "created_at"
      ∨ a = "updated_at") := by simpa [dataFields] using ha
  push_neg at h'
  obtain ⟨h1, h2, h3, h4, h5, h6, h7, h8, h9, h10, h11⟩ := h'
  simp only [UserProfile.setattr]
  simp [h1, h2, h3, h4, h5, h6, h7, h8, h9, h10, h11]

/-- Folding `from_dict`'s per-key step over keys all distinct from a
data field `f` leaves `f`'s `__dict__` entry unchanged. -/
theorem from_dict_fold_field (f : String) (hf : f ∈ dataFields) :
    ∀ (d : List (String × J)) (q : UserProfile), (∀ kv ∈ d, kv.1 ≠ f) →
    alookup ((d.foldl
        (fun p kv => if p.hasattr kv.1 then p.setattr kv.1 kv.2 else p)
        q).to_dict) f
      = alookup q.to_dict f := by
  intro d
  induction d with
  | nil => intro q _; rfl
  | cons kv d ih =>
    intro q hmiss
    simp only [List.foldl_cons]
    rw [ih _ (fun kv' h' => hmiss kv' (List.mem_cons_of_mem _ h'))]
    split
    · exact to_dict_lookup_setattr_ne q kv.1 f kv.2 hf (hmiss kv (by simp))
    · rfl

/-- Every extra attribute `from_dict`'s fold can create is named after a
class method (the only non-data-field names `hasattr` accepts on a
profile whose extras already satisfy this). -/
theorem from_dict_fold_extras :
    ∀ (d : List (String × J)) (q : UserProfile),
    (∀ k ∈ akeys q.extraAttrs, k ∈ methodNames) →
    ∀ k ∈ akeys ((d.foldl
        (fun p kv => if p.hasattr kv.1 then p.setattr kv.1 kv.2 else p)
        q).extraAttrs), k ∈ methodNames := by
  intro d
  induction d with
  | nil => intro q hq; exact hq
  | cons kv d ih =>
    intro q hq
    simp only [List.foldl_cons]
    apply ih
    by_cases hh : q.hasattr kv.1 = true
    · rw [if_pos hh]
      intro k hk
      rw [setattr_extras] at hk
      by_cases hdf : kv.1 ∈ dataFields
      · rw [if_pos hdf] at hk; exact hq k hk
      · rw [if_neg hdf] at hk
        rcases mem_akeys_ainsert hk with h' | rfl
        · exact hq k h'
        · unfold UserProfile.hasattr at hh
          simp only [Bool.or_eq_true, decide_eq_true_eq] at hh
          rcases hh with (hh | hh) | hh
          · exact absurd hh hdf
          · exact hh
          · exact hq _ (mem_akeys_of_alookup_isSome hh)
    · rw [if_neg hh]; exact hq

/-- Folding `from_dict`'s per-key step over fresh, method-named,
duplicate-free keys appends them as extra attributes in order. -/
theorem from_dict_fold_append :
    ∀ (ex : List (String × J)) (q : UserProfile),
    (∀ k ∈ akeys ex, k ∉ dataFields) →
    (∀ k ∈ akeys ex, k ∈ methodNames) →
    (akeys ex).Nodup →
    (∀ k ∈ akeys ex, alookup q.extraAttrs k = none) →
    ex.foldl (fun p kv => if p.hasattr kv.1 then p.setattr kv.1 kv.2 else p) q
      = { q with extraAttrs := q.extraAttrs ++ ex } := by
  intro ex
  induction ex with
  | nil => intro q _ _ _ _; simp
  | cons kv ex ih =>
    intro q hdf hm hnd hfresh
    obtain ⟨a, v⟩ := kv
    have ha_df : a ∉ dataFields := hdf a (by simp [akeys])
    have ha_m : a ∈ methodNames := hm a (by simp [akeys])
    have ha_fresh : alookup q.extraAttrs a = none := hfresh a (by simp [akeys])
    have hnd' : (a :: akeys ex).Nodup := hnd
    obtain ⟨ha_notin, hnd_tail⟩ := List.nodup_cons.mp hnd'
    have hh : q.hasattr a = true := by
      unfold UserProfile.hasattr
      simp [ha_m]
    simp only [List.foldl_cons]
    rw [if_pos hh, setattr_not_dataField q a v ha_df,
      ainsert_of_alookup_none _ _ _ ha_fresh]
    rw [ih _ (fun k hk => hdf k (by simp [akeys] at hk ⊢; exact Or.inr hk))
        (fun k hk => hm k (by simp [akeys] at hk ⊢; exact Or.inr hk))
        hnd_tail
        ?_]
    · simp
    · intro k hk
      rw [alookup_append]
      have h1 : alookup q.extraAttrs k = none := hfresh k (by
        simp [akeys] at hk ⊢
        exact Or.inr hk)
      have hak : ¬ a = k := by
        intro hak
        exact ha_notin (hak ▸ hk)
      have h2 : alookup [(a, v)] k = none := by simp [alookup, hak]
      rw [h1, h2]
      rfl

/-- C6's "unknown keys are never added as attributes" part fails on the
code: a document key equal to a method name (here `"get_summary"`),
though not a recognized profile field, passes the `hasattr` guard and
becomes a shadowing instance attribute. -/
theorem c6_counterexample :
    "get_summary" ∉ dataFields
    ∧ (UserProfile.from_dict [("user_id", J.int 1), ("get_summary", J.int 5)]
        "t0").extraAttrs = [("get_summary", J.int 5)] :=
  ⟨by decide, rfl⟩

/-- C6 amended: `from_document(to_document(P))` equals `P` field for
field for every profile whose instance `__dict__` is reachable through
the class's API (unique attribute names, extras disjoint from the data
fields and named after class methods); a document key naming no
attribute at all is ignored, a key naming a data field missing from the
document leaves that field at its constructor default, and the only
attributes `from_document` can create beyond the data fields are
method-named shadows. -/
theorem c6_amended (p : UserProfile) (now : String)
    (hnd : (akeys p.extraAttrs).Nodup)
    (hdf : ∀ k ∈ akeys p.extraAttrs, k ∉ dataFields)
    (hm : ∀ k ∈ akeys p.extraAttrs, k ∈ methodNames) :
    UserProfile.from_dict p.to_dict now = p
    ∧ (∀ (data : List (String × J)) (f : String), f ∈ dataFields →
        (∀ kv ∈ data, kv.1 ≠ f) →
        alookup (UserProfile.from_dict data now).to_dict f
          = alookup (UserProfile.init ((alookup data "user_id").getD .null)
              now).to_dict f)
    ∧ (∀ data : List (String × J),
        ∀ k ∈ akeys (UserProfile.from_dict data now).extraAttrs,
          k ∈ methodNames) := by
  refine ⟨?_, ?_, ?_⟩
  · obtain ⟨u, f1, f2, f3, f4, f5, f6, f7, f8, f9, f10, ex⟩ := p
    unfold UserProfile.from_dict
    have huid : (alookup (UserProfile.to_dict
        ⟨u, f1, f2, f3, f4, f5, f6, f7, f8, f9, f10, ex⟩) "user_id").getD
          .null = u := rfl
    rw [huid]
    rw [show UserProfile.to_dict ⟨u, f1, f2, f3, f4, f5, f6, f7, f8, f9,
        f10, ex⟩
      = [("user_id", u), ("name", f1), ("nickname", f2),
         ("preferred_name", f3), ("personality_traits", f4),
         ("interests", f5), ("notable_facts", f6),
         ("relationship_context", f7), ("conversation_topics", f8),
         ("created_at", f9), ("updated_at", f10)] ++ ex from rfl]
    rw [List.foldl_append]
    rw [show List.foldl
        (fun p kv => if p.hasattr kv.1 then p.setattr kv.1 kv.2 else p)
        (UserProfile.init u now)
        [("user_id", u), ("name", f1), ("nickname", f2),
         ("preferred_name", f3), ("personality_traits", f4),
         ("interests", f5), ("notable_facts", f6),
         ("relationship_context", f7), ("conversation_topics", f8),
         ("created_at", f9), ("updated_at", f10)]
      = ⟨u, f1, f2, f3, f4, f5, f6, f7, f8, f9, f10, []⟩ from rfl]
    rw [from_dict_fold_append ex
      ⟨u, f1, f2, f3, f4, f5, f6, f7, f8, f9, f10, []⟩ hdf hm hnd
      (fun k _ => rfl)]
    rfl
  · intro data f hf hmiss
    unfold UserProfile.from_dict
    exact from_dict_fold_field f hf data _ hmiss
  · intro data k hk
    unfold UserProfile.from_dict at hk
    exact from_dict_fold_extras data _
      (fun k' hk' => absurd hk' (by simp [UserProfile.init, akeys])) k hk

/-- Witness for C6's amended theorem at a concrete profile carrying a
method-named extra attribute. -/
theorem c6_amended_witness :
    UserProfile.from_dict (UserProfile.to_dict ⟨J.int 1, J.null, J.null,
      J.null, J.arr [], J.arr [], J.arr [], J.arr [], J.arr [], J.str "c",
      J.str "u", [("to_dict", J.int 7)]⟩) "t9"
      = ⟨J.int 1, J.null, J.null, J.null, J.arr [], J.arr [], J.arr [],
         J.arr [], J.arr [], J.str "c", J.str "u", [("to_dict", J.int 7)]⟩ :=
  (c6_amended ⟨J.int 1, J.null, J.null, J.null, J.arr [], J.arr [],
    J.arr [], J.arr [], J.arr [], J.str "c", J.str "u",
    [("to_dict", J.int 7)]⟩ "t9" (by decide) (by decide) (by decide)).1

/-! ### Analysis of `save_data`'s write set and aggregate result -/

/-- `save_user_profile` changes only `user_emotions`; the remaining
containers pass through. -/
theorem save_user_profile_fields (em : EmotionManager) (uid : Int) :
    (save_user_profile em uid).1.user_memories = em.user_memories
    ∧ (save_user_profile em uid).1.user_events = em.user_events
    ∧ (save_user_profile em uid).1.user_milestones = em.user_milestones := by
  unfold save_user_profile
  split <;> exact ⟨rfl, rfl, rfl⟩

/-- One loop iteration appends exactly that user's writes and leaves
the aggregate boolean unchanged (the per-user helpers return `True`). -/
theorem saveDataStep_snd (cmOpt : Option ConversationManager)
    (st : EmotionManager × List SavePath × Bool) (uid : Int) :
    (saveDataStep cmOpt st uid).2.1 = st.2.1 ++ perUserPaths st.1 cmOpt uid
    ∧ (saveDataStep cmOpt st uid).2.2 = st.2.2 := by
  unfold saveDataStep perUserPaths cmPaths
  cases cmOpt with
  | none => simp [save_user_profile]
  | some cm =>
    by_cases h1 : (alookup cm.conversations uid).isSome <;>
      by_cases h2 : (alookup cm.user_profiles uid).isSome <;>
        simp [h1, h2, save_user_profile, save_conversation,
          save_user_profile_data, List.append_assoc]

/-- One loop iteration preserves the memory/event/milestone
containers. -/
theorem saveDataStep_fst (cmOpt : Option ConversationManager)
    (st : EmotionManager × List SavePath × Bool) (uid : Int) :
    (saveDataStep cmOpt st uid).1.user_memories = st.1.user_memories
    ∧ (saveDataStep cmOpt st uid).1.user_events = st.1.user_events
    ∧ (saveDataStep cmOpt st uid).1.user_milestones = st.1.user_milestones := by
  have h := save_user_profile_fields st.1 uid
  unfold saveDataStep
  cases cmOpt with
  | none => exact h
  | some cm =>
    by_cases h1 : (alookup cm.conversations uid).isSome <;>
      by_cases h2 : (alookup cm.user_profiles uid).isSome <;>
        simpa [h1, h2, save_conversation, save_user_profile_data] using h

/-- The per-user write set depends only on the pass-through
containers. -/
theorem perUserPaths_congr (em em' : EmotionManager)
    (cmOpt : Option ConversationManager)
    (h1 : em.user_memories = em'.user_memories)
    (h2 : em.user_events = em'.user_events)
    (h3 : em.user_milestones = em'.user_milestones) :
    perUserPaths em cmOpt = perUserPaths em' cmOpt := by
  funext uid
  unfold perUserPaths save_user_profile
  rw [h1, h2, h3]

/-- The loop of `save_data`: the write list is the concatenation of
every user's writes (computed against the initial containers), and the
aggregate boolean passes through untouched. -/
theorem foldl_saveDataStep (cmOpt : Option ConversationManager) :
    ∀ (uids : List Int) (st : EmotionManager × List SavePath × Bool),
    ((uids.foldl (saveDataStep cmOpt) st).2.1
       = st.2.1 ++ (uids.map (perUserPaths st.1 cmOpt)).flatten)
    ∧ ((uids.foldl (saveDataStep cmOpt) st).2.2 = st.2.2) := by
  intro uids
  induction uids with
  | nil => intro st; simp
  | cons uid rest ih =>
    intro st
    simp only [List.foldl_cons, List.map_cons, List.flatten_cons]
    obtain ⟨hp, hb⟩ := ih (saveDataStep cmOpt st uid)
    obtain ⟨hf1, hf2, hf3⟩ := saveDataStep_fst cmOpt st uid
    constructor
    · rw [hp, (saveDataStep_snd cmOpt st uid).1,
        perUserPaths_congr _ _ cmOpt hf1 hf2 hf3]
      simp [List.append_assoc]
    · rw [hb, (saveDataStep_snd cmOpt st uid).2]


/-- C2 as stated fails on the code: with the composite write for user 42
failing and every other write succeeding, `save_data` still returns
success, while the conjunction of the attempted writes' results is
false (`save_user_profile` ignores its `save_file` results). -/
theorem c2_counterexample :
    (save_data ⟨[(42, [("mood", J.str "happy")])], [], [], [], [], [], []⟩
      none (fun p => decide (p ≠ SavePath.composite 42))).2.2 = true
    ∧ ((save_data ⟨[(42, [("mood", J.str "happy")])], [], [], [], [], [], []⟩
      none (fun p => decide (p ≠ SavePath.composite 42))).2.1.all
        (fun p => decide (p ≠ SavePath.composite 42))) = false := by
  constructor
  · rfl
  · rfl

/-- C2 amended: `save_data` attempts every file regardless of earlier
failures, but its aggregate boolean is the conjunction of the helper
return values, and the per-user helpers swallow their `save_file`
results and return `True`; absent an exception outside `save_file`, the
aggregate equals exactly the success of the DM-settings write. -/
theorem c2_amended (em : EmotionManager) (cmOpt : Option ConversationManager)
    (fileOk : SavePath → Bool) :
    (save_data em cmOpt fileOk).2.2 = fileOk SavePath.dmSettings := by
  unfold save_data save_dm_settings
  simp [(foldl_saveDataStep cmOpt (akeys em.user_emotions) (em, [], true)).2]

/-- The conversation-side writes never include a memories, events or
milestones file. -/
theorem cmPaths_families (cmOpt : Option ConversationManager) (uid u : Int) :
    SavePath.memories uid ∉ cmPaths cmOpt u
    ∧ SavePath.events uid ∉ cmPaths cmOpt u
    ∧ SavePath.milestones uid ∉ cmPaths cmOpt u := by
  cases cmOpt with
  | none => simp [cmPaths]
  | some cm =>
    unfold cmPaths
    by_cases h1 : (alookup cm.conversations u).isSome <;>
      by_cases h2 : (alookup cm.user_profiles u).isSome <;>
        simp [h1, h2, save_conversation, save_user_profile_data]

/-- Membership of a memories write in one user's write set. -/
theorem mem_perUserPaths_memories (em : EmotionManager)
    (cmOpt : Option ConversationManager) (uid u : Int) :
    SavePath.memories uid ∈ perUserPaths em cmOpt u
      ↔ (u = uid ∧ truthyEntry em.user_memories uid = true) := by
  unfold perUserPaths save_user_profile truthyEntry
  simp only [List.mem_append, List.mem_cons]
  constructor
  · intro h
    rcases h with h | h
    · rcases h with h | h
      · exact absurd h (by simp)
      · rcases h with (h | h) | h
        · rcases hm : alookup em.user_memories u with _ | v <;> rw [hm] at h
          · simp at h
          · by_cases ht : pyTruthy v = true <;> simp [ht] at h
            obtain ⟨rfl⟩ := h
            refine ⟨rfl, ?_⟩
            rw [hm]
            exact ht
        · rcases he : alookup em.user_events u with _ | v <;> rw [he] at h <;>
            [simp at h; skip]
          by_cases ht : pyTruthy v = true <;> simp [ht] at h
        · rcases hl : alookup em.user_milestones u with _ | v <;>
            rw [hl] at h <;> [simp at h; skip]
          by_cases ht : pyTruthy v = true <;> simp [ht] at h
    · exact absurd h (cmPaths_families cmOpt uid u).1
  · rintro ⟨rfl, hcond⟩
    rcases hm : alookup em.user_memories u with _ | v <;> rw [hm] at hcond
    · exact absurd (show false = true from hcond) (by decide)
    · refine Or.inl (Or.inr ?_)
      exact Or.inl (Or.inl (by
        have ht : pyTruthy v = true := hcond
        simp [ht]))

/-- Membership of an events write in one user's write set. -/
theorem mem_perUserPaths_events (em : EmotionManager)
    (cmOpt : Option ConversationManager) (uid u : Int) :
    SavePath.events uid ∈ perUserPaths em cmOpt u
      ↔ (u = uid ∧ truthyEntry em.user_events uid = true) := by
  unfold perUserPaths save_user_profile truthyEntry
  simp only [List.mem_append, List.mem_cons]
  constructor
  · intro h
    rcases h with h | h
    · rcases h with h | h
      · exact absurd h (by simp)
      · rcases h with (h | h) | h
        · rcases hm : alookup em.user_memories u with _ | v <;> rw [hm] at h <;>
            [simp at h; skip]
          by_cases ht : pyTruthy v = true <;> simp [ht] at h
        · rcases he : alookup em.user_events u with _ | v <;> rw [he] at h
          · simp at h
          · by_cases ht : pyTruthy v = true <;> simp [ht] at h
            obtain ⟨rfl⟩ := h
            refine ⟨rfl, ?_⟩
            rw [he]
            exact ht
        · rcases hl : alookup em.user_milestones u with _ | v <;>
            rw [hl] at h <;> [simp at h; skip]
          by_cases ht : pyTruthy v = true <;> simp [ht] at h
    · exact absurd h (cmPaths_families cmOpt uid u).2.1
  · rintro ⟨rfl, hcond⟩
    rcases he : alookup em.user_events u with _ | v <;> rw [he] at hcond
    · exact absurd (show false = true from hcond) (by decide)
    · refine Or.inl (Or.inr ?_)
      exact Or.inl (Or.inr (by
        have ht : pyTruthy v = true := hcond
        simp [ht]))

/-- Membership of a milestones write in one user's write set. -/
theorem mem_perUserPaths_milestones (em : EmotionManager)
    (cmOpt : Option ConversationManager) (uid u : Int) :
    SavePath.milestones uid ∈ perUserPaths em cmOpt u
      ↔ (u = uid ∧ truthyEntry em.user_milestones uid = true) := by
  unfold perUserPaths save_user_profile truthyEntry
  simp only [List.mem_append, List.mem_cons]
  constructor
  · intro h
    rcases h with h | h
    · rcases h with h | h
      · exact absurd h (by simp)
      · rcases h with (h | h) | h
        · rcases hm : alookup em.user_memories u with _ | v <;> rw [hm] at h <;>
            [simp at h; skip]
          by_cases ht : pyTruthy v = true <;> simp [ht] at h
        · rcases he : alookup em.user_events u with _ | v <;> rw [he] at h <;>
            [simp at h; skip]
          by_cases ht : pyTruthy v = true <;> simp [ht] at h
        · rcases hl : alookup em.user_milestones u with _ | v <;> rw [hl] at h
          · simp at h
          · by_cases ht : pyTruthy v = true <;> simp [ht] at h
            obtain ⟨rfl⟩ := h
            refine ⟨rfl, ?_⟩
            rw [hl]
            exact ht
    · exact absurd h (cmPaths_families cmOpt uid u).2.2
  · rintro ⟨rfl, hcond⟩
    rcases hl : alookup em.user_milestones u with _ | v <;> rw [hl] at hcond
    · exact absurd (show false = true from hcond) (by decide)
    · refine Or.inl (Or.inr ?_)
      exact Or.inr (by
        have ht : pyTruthy v = true := hcond
        simp [ht])

/-- The full `save_data` write list: every user's writes in container
order, then the DM-settings file. -/
theorem saveData_paths (em : EmotionManager)
    (cmOpt : Option ConversationManager) (fileOk : SavePath → Bool) :
    (save_data em cmOpt fileOk).2.1
      = ((akeys em.user_emotions).map (perUserPaths em cmOpt)).flatten
        ++ [SavePath.dmSettings] := by
  unfold save_data save_dm_settings
  simp [(foldl_saveDataStep cmOpt (akeys em.user_emotions) (em, [], true)).1]

/-- Membership of a family write in the full `save_data` write set. -/
theorem mem_saveData_families (em : EmotionManager)
    (cmOpt : Option ConversationManager) (fileOk : SavePath → Bool)
    (uid : Int) :
    (SavePath.memories uid ∈ (save_data em cmOpt fileOk).2.1
      ↔ (uid ∈ akeys em.user_emotions
          ∧ truthyEntry em.user_memories uid = true))
    ∧ (SavePath.events uid ∈ (save_data em cmOpt fileOk).2.1
      ↔ (uid ∈ akeys em.user_emotions
          ∧ truthyEntry em.user_events uid = true))
    ∧ (SavePath.milestones uid ∈ (save_data em cmOpt fileOk).2.1
      ↔ (uid ∈ akeys em.user_emotions
          ∧ truthyEntry em.user_milestones uid = true)) := by
  rw [saveData_paths]
  refine ⟨?_, ?_, ?_⟩ <;>
    simp [List.mem_append, List.mem_flatten, List.mem_map,
      mem_perUserPaths_memories, mem_perUserPaths_events,
      mem_perUserPaths_milestones]
  · constructor
    · rintro ⟨a, ha, rfl, hp⟩
      exact ⟨ha, hp⟩
    · rintro ⟨hu, hp⟩
      exact ⟨uid, hu, rfl, hp⟩
  · constructor
    · rintro ⟨a, ha, rfl, hp⟩
      exact ⟨ha, hp⟩
    · rintro ⟨hu, hp⟩
      exact ⟨uid, hu, rfl, hp⟩
  · constructor
    · rintro ⟨a, ha, rfl, hp⟩
      exact ⟨ha, hp⟩
    · rintro ⟨hu, hp⟩
      exact ⟨uid, hu, rfl, hp⟩

/-- C9 as stated fails on the code: user 42 has a non-empty memories
list but no entry in the emotion-state container, and since `save_data`
iterates only the emotion-state container's users, the next save writes
no memories file for 42. -/
theorem c9_counterexample :
    pyTruthy (J.arr [J.int 1]) = true
    ∧ SavePath.memories 42 ∉ (save_data
        ⟨[], [(42, J.arr [J.int 1])], [], [], [], [], []⟩
        none (fun _ => true)).2.1 := by
  refine ⟨rfl, ?_⟩
  decide

/-- C9 amended: a user whose memories entry is absent or falsy never
gets a memories file written by `save_data`; and for users present in
the emotion-state container, the memories file is written exactly when
the memories entry is non-empty — likewise for the events and
milestones families.  (Users absent from the emotion-state container
are skipped entirely, even with non-empty memories.) -/
theorem c9_amended (em : EmotionManager)
    (cmOpt : Option ConversationManager) (fileOk : SavePath → Bool)
    (uid : Int) :
    (truthyEntry em.user_memories uid = false →
      SavePath.memories uid ∉ (save_data em cmOpt fileOk).2.1)
    ∧ (uid ∈ akeys em.user_emotions →
        ((SavePath.memories uid ∈ (save_data em cmOpt fileOk).2.1
            ↔ truthyEntry em.user_memories uid = true)
          ∧ (SavePath.events uid ∈ (save_data em cmOpt fileOk).2.1
            ↔ truthyEntry em.user_events uid = true)
          ∧ (SavePath.milestones uid ∈ (save_data em cmOpt fileOk).2.1
            ↔ truthyEntry em.user_milestones uid = true))) := by
  obtain ⟨hm, he, hl⟩ := mem_saveData_families em cmOpt fileOk uid
  constructor
  · intro hfalse hmem
    have := (hm.mp hmem).2
    rw [hfalse] at this
    exact absurd this (by decide)
  · intro hu
    refine ⟨?_, ?_, ?_⟩
    · rw [hm]
      exact ⟨fun h => h.2, fun h => ⟨hu, h⟩⟩
    · rw [he]
      exact ⟨fun h => h.2, fun h => ⟨hu, h⟩⟩
    · rw [hl]
      exact ⟨fun h => h.2, fun h => ⟨hu, h⟩⟩

/-- Witness for C9's amended theorem at a concrete state: user 42 has
an emotion entry and one memory, so the memories file is written. -/
theorem c9_amended_witness :
    SavePath.memories 42 ∈ (save_data
      ⟨[(42, [("mood", J.str "ok")])], [(42, J.arr [J.int 1])], [], [], [],
       [], []⟩ none (fun _ => true)).2.1 :=
  (((c9_amended
      ⟨[(42, [("mood", J.str "ok")])], [(42, J.arr [J.int 1])], [], [], [],
       [], []⟩ none (fun _ => true) 42).2 (by decide)).1).mpr (by decide)

/-- C10: for a user present in the emotion-state container,
`save_user_profile` mutates the shared in-memory emotion mapping as a
side effect — afterwards it contains the keys `relationship` and
`interaction_stats`, holding the current values of the separate
relationship and interaction-stats containers, because the composite
on-disk document is built by inserting those keys into the shared
dictionary rather than into a fresh copy. -/
theorem c10_save_mutates (em : EmotionManager) (uid : Int)
    (d0 : List (String × J)) (h : alookup em.user_emotions uid = some d0) :
    ∃ d', alookup (save_user_profile em uid).1.user_emotions uid = some d'
      ∧ alookup d' "relationship"
          = some ((alookup em.relationship_progress uid).getD (.obj []))
      ∧ alookup d' "interaction_stats"
          = some (.obj ((alookup em.interaction_stats uid).getD [])) := by
  unfold save_user_profile
  rw [h]
  simp only [Option.getD_some, Option.isSome_some, if_true]
  refine ⟨_, alookup_ainsert _ uid _, ?_, ?_⟩
  · rw [alookup_ainsert_ne _ _ (by decide : "interaction_stats" ≠ "relationship")]
    exact alookup_ainsert _ _ _
  · exact alookup_ainsert _ _ _

/-- Witness for C10 at a concrete manager. -/
theorem c10_save_mutates_witness :
    ∃ d', alookup (save_user_profile
        ⟨[(42, [("mood", J.str "happy")])], [], [], [],
         [(42, [("greet", J.int 3)])], [(42, J.obj [("trust", J.int 5)])],
         []⟩ 42).1.user_emotions 42 = some d'
      ∧ alookup d' "relationship"
          = some ((alookup ([(42, J.obj [("trust", J.int 5)])] :
              List (Int × J)) 42).getD (.obj []))
      ∧ alookup d' "interaction_stats"
          = some (.obj ((alookup ([(42, [("greet", J.int 3)])] :
              List (Int × List (String × J))) 42).getD [])) :=
  c10_save_mutates
    ⟨[(42, [("mood", J.str "happy")])], [], [], [],
     [(42, [("greet", J.int 3)])], [(42, J.obj [("trust", J.int 5)])], []⟩
    42 [("mood", J.str "happy")] rfl

/-- Scan-level analysis (dead code: see `load_data`): on the spec's
concrete scenario directory, the scan would populate the relationship
container with `{"trust": 5}` and the interaction-stats container with
`{"greet": 3}`, but the emotion mapping for user 42 would keep the
embedded `relationship` and `interaction_stats` keys (the scan copies
them with `get` rather than removing them with `pop` — only the
single-user `load_user_profile` pops) and would gain a backfilled
`first_interaction` field. -/
theorem load_data_scan_keeps_subdocuments (now : String) :
    alookup (load_data_scan true
      [("42", PContent.doc (J.obj [("mood", J.str "happy"),
        ("relationship", J.obj [("trust", J.int 5)]),
        ("interaction_stats", J.obj [("greet", J.int 3)])]))]
      [] [] none ⟨[], [], []⟩ now).em.user_emotions 42
      = some [("mood", J.str "happy"),
              ("relationship", J.obj [("trust", J.int 5)]),
              ("interaction_stats", J.obj [("greet", J.int 3)]),
              ("first_interaction", J.str now)]
    ∧ alookup (load_data_scan true
      [("42", PContent.doc (J.obj [("mood", J.str "happy"),
        ("relationship", J.obj [("trust", J.int 5)]),
        ("interaction_stats", J.obj [("greet", J.int 3)])]))]
      [] [] none ⟨[], [], []⟩ now).em.relationship_progress 42
        = some (J.obj [("trust", J.int 5)])
    ∧ alookup (load_data_scan true
      [("42", PContent.doc (J.obj [("mood", J.str "happy"),
        ("relationship", J.obj [("trust", J.int 5)]),
        ("interaction_stats", J.obj [("greet", J.int 3)])]))]
      [] [] none ⟨[], [], []⟩ now).em.interaction_stats 42
        = some [("greet", J.int 3)] :=
  ⟨rfl, rfl, rfl⟩

/-- Scan-level analysis (dead code: see `load_data`): on a directory
whose emotional-profiles directory holds exactly one valid composite
document and whose other families are empty, the scan would decode one
composite profile yet return failure — the returned indicator is
`profile_count > 0` after `profile_count` has been reassigned by the
structured-user-profile scan (which, moreover, can only load profiles
for users already present in memory). -/
theorem load_data_scan_indicator :
    (load_data_scan true [("42", PContent.doc (J.obj [("mood", J.str "happy")]))]
      [] [] none ⟨[], [], []⟩ "T").profileCount = 1
    ∧ (load_data_scan true [("42", PContent.doc (J.obj [("mood", J.str "happy")]))]
      [] [] none ⟨[], [], []⟩ "T").ok = false :=
  ⟨rfl, rfl⟩

/-- Scan-level analysis (dead code: see `load_data`): for every
directory of exactly three composite profile files (numeric,
underscore-free stems) of which exactly one is malformed — at any
position — the scan would complete, load the other two profiles, and
report an error count of 1, the per-file isolation the spec intends. -/
theorem load_data_scan_partial_failure_isolation (s1 s2 s3 : String)
    (u1 u2 u3 : Int)
    (kv1 kv2 : List (String × J)) (i : Nat) (now : String)
    (hc1 : strContains s1 '_' = false) (hc2 : strContains s2 '_' = false)
    (hc3 : strContains s3 '_' = false)
    (hp1 : parseInt? s1 = some u1) (hp2 : parseInt? s2 = some u2)
    (hp3 : parseInt? s3 = some u3)
    (hne : u1 ≠ u2) (hi : i < 3) :
    let dir := List.insertIdx i (s3, PContent.malformed)
      [(s1, PContent.doc (J.obj kv1)), (s2, PContent.doc (J.obj kv2))]
    let out := load_data_scan true dir [] [] none ⟨[], [], []⟩ now
    out.errorCount = 1 ∧ out.profileCount = 2
    ∧ alookup out.em.user_emotions u1
        = some (backfillFirstInteraction now kv1)
    ∧ alookup out.em.user_emotions u2
        = some (backfillFirstInteraction now kv2) := by
  have hm1 := strEndsWith_eq_false s1 "_memories" '_' (by decide) hc1
  have hm2 := strEndsWith_eq_false s2 "_memories" '_' (by decide) hc2
  have hm3 := strEndsWith_eq_false s3 "_memories" '_' (by decide) hc3
  have hv1 := strEndsWith_eq_false s1 "_events" '_' (by decide) hc1
  have hv2 := strEndsWith_eq_false s2 "_events" '_' (by decide) hc2
  have hv3 := strEndsWith_eq_false s3 "_events" '_' (by decide) hc3
  have hl1 := strEndsWith_eq_false s1 "_milestones" '_' (by decide) hc1
  have hl2 := strEndsWith_eq_false s2 "_milestones" '_' (by decide) hc2
  have hl3 := strEndsWith_eq_false s3 "_milestones" '_' (by decide) hc3
  interval_cases i
  · intro dir out
    simp only [out, dir,
      show List.insertIdx 0 (s3, PContent.malformed)
          [(s1, PContent.doc (J.obj kv1)), (s2, PContent.doc (J.obj kv2))]
        = [(s3, PContent.malformed), (s1, PContent.doc (J.obj kv1)),
           (s2, PContent.doc (J.obj kv2))] from rfl,
      load_data_scan, loadProfileStep, loadFamily, loadUserProfilesScan,
      loadConversationsScan, loadSummariesScan, List.foldl_cons,
      List.foldl_nil, hc1, hc2, hc3, hp1, hp2, hp3, hm1, hm2, hm3, hv1, hv2,
      hv3, hl1, hl2, hl3, Bool.not_true, Bool.false_eq_true, if_false,
      List.map_cons, List.map_nil]
    refine ⟨trivial, trivial, ?_, ?_⟩ <;> simp [ainsert, alookup, hne]
  · intro dir out
    simp only [out, dir,
      show List.insertIdx 1 (s3, PContent.malformed)
          [(s1, PContent.doc (J.obj kv1)), (s2, PContent.doc (J.obj kv2))]
        = [(s1, PContent.doc (J.obj kv1)), (s3, PContent.malformed),
           (s2, PContent.doc (J.obj kv2))] from rfl,
      load_data_scan, loadProfileStep, loadFamily, loadUserProfilesScan,
      loadConversationsScan, loadSummariesScan, List.foldl_cons,
      List.foldl_nil, hc1, hc2, hc3, hp1, hp2, hp3, hm1, hm2, hm3, hv1, hv2,
      hv3, hl1, hl2, hl3, Bool.not_true, Bool.false_eq_true, if_false,
      List.map_cons, List.map_nil]
    refine ⟨trivial, trivial, ?_, ?_⟩ <;> simp [ainsert, alookup, hne]
  · intro dir out
    simp only [out, dir,
      show List.insertIdx 2 (s3, PContent.malformed)
          [(s1, PContent.doc (J.obj kv1)), (s2, PContent.doc (J.obj kv2))]
        = [(s1, PContent.doc (J.obj kv1)), (s2, PContent.doc (J.obj kv2)),
           (s3, PContent.malformed)] from rfl,
      load_data_scan, loadProfileStep, loadFamily, loadUserProfilesScan,
      loadConversationsScan, loadSummariesScan, List.foldl_cons,
      List.foldl_nil, hc1, hc2, hc3, hp1, hp2, hp3, hm1, hm2, hm3, hv1, hv2,
      hv3, hl1, hl2, hl3, Bool.not_true, Bool.false_eq_true, if_false,
      List.map_cons, List.map_nil]
    refine ⟨trivial, trivial, ?_, ?_⟩ <;> simp [ainsert, alookup, hne]

/-- The scan analysis instantiated at a concrete three-file
directory. -/
theorem load_data_scan_partial_failure_isolation_instance :
    let dir := List.insertIdx 2 ("3", PContent.malformed)
      [("1", PContent.doc (J.obj [("a", J.int 1)])),
       ("2", PContent.doc (J.obj []))]
    let out := load_data_scan true dir [] [] none ⟨[], [], []⟩ "T"
    out.errorCount = 1 ∧ out.profileCount = 2
    ∧ alookup out.em.user_emotions 1
        = some (backfillFirstInteraction "T" [("a", J.int 1)])
    ∧ alookup out.em.user_emotions 2
        = some (backfillFirstInteraction "T" []) :=
  load_data_scan_partial_failure_isolation "1" "2" "3" 1 2 3
    [("a", J.int 1)] [] 2 "T"
    (by decide) (by decide) (by decide) rfl rfl rfl (by decide) (by decide)

/-- C1: on the scenario's directory state, `load_data` raises
`NameError` instead of completing — its container initialization
references `defaultdict`, a name the storage module never imports — so
no demultiplexing into the emotion, relationship and interaction-stats
containers ever happens. -/
theorem c1_load_raises :
    load_data true
      [("42", PContent.doc (J.obj [("mood", J.str "happy"),
        ("relationship", J.obj [("trust", J.int 5)]),
        ("interaction_stats", J.obj [("greet", J.int 3)])]))]
      [] [] none ⟨[], [], []⟩ "T"
      = Except.error (PyError.nameError "defaultdict") := rfl

/-- C3: on a directory whose emotional-profiles directory holds exactly
one valid composite document (and nothing else), `load_data` raises
`NameError` at its container initialization instead of returning a
success indicator at all. -/
theorem c3_load_raises :
    load_data true
      [("42", PContent.doc (J.obj [("mood", J.str "happy")]))]
      [] [] none ⟨[], [], []⟩ "T"
      = Except.error (PyError.nameError "defaultdict") := rfl

/-- C4: on a directory of exactly three composite profile files of
which one is malformed, `load_data` does not complete without raising
and isolates no per-file failure: it raises `NameError` at its
container initialization, before any file is read. -/
theorem c4_load_raises :
    load_data true
      [("1", PContent.doc (J.obj [("a", J.int 1)])),
       ("2", PContent.doc (J.obj [])),
       ("3", PContent.malformed)]
      [] [] none ⟨[], [], []⟩ "T"
      = Except.error (PyError.nameError "defaultdict") := rfl

end A2
